import Mathlib

/-!
# Verification of the autopilot enforcement core (oh-my-claudecode)

Shallow embedding of `src/hooks/autopilot/enforcement.ts` and
`src/hooks/autopilot/signals.ts`.  The state store (`state.js`), the
compound-transition operations (`transition.js`) and the prompt service
(`prompts.js`) are external collaborators whose sources are not part of the
verified subset; they are modelled from the specification and marked as such.
Persisted state is embedded as explicit state passing: `checkAutopilot` takes
the persisted record (an `Option AutopilotState`) and returns the result, the
new persisted record, and the number of persisted-state writes performed.
-/

/-- The seven autopilot phases (`AutopilotPhase` in `types.ts`). -/
inductive AutopilotPhase
  | expansion
  | planning
  | execution
  | qa
  | validation
  | complete
  | failed
deriving DecidableEq, Repr

/-- The eight signal markers (`AutopilotSignal` in `types.ts`). -/
inductive AutopilotSignal
  | EXPANSION_COMPLETE
  | PLANNING_COMPLETE
  | EXECUTION_COMPLETE
  | QA_COMPLETE
  | VALIDATION_COMPLETE
  | AUTOPILOT_COMPLETE
  | TRANSITION_TO_QA
  | TRANSITION_TO_VALIDATION
deriving DecidableEq, Repr

/-- Expansion substate block (only the field `spec_path` is read by the core). -/
structure AutopilotExpansion where
  spec_path : Option String
deriving DecidableEq, Repr

/-- Planning substate block (only the field `plan_path` is read by the core). -/
structure AutopilotPlanning where
  plan_path : Option String
deriving DecidableEq, Repr

/-- Execution substate block (task counters surfaced in result metadata). -/
structure AutopilotExecution where
  tasks_completed : Nat
  tasks_total : Nat
deriving DecidableEq, Repr

/-- The persisted enforcement record (`AutopilotState` in `types.ts`),
restricted to the fields the enforcement core reads or writes. -/
structure AutopilotState where
  active : Bool
  session_id : Option String
  phase : AutopilotPhase
  iteration : Nat
  max_iterations : Nat
  originalIdea : String
  expansion : AutopilotExpansion
  planning : AutopilotPlanning
  execution : AutopilotExecution
deriving DecidableEq, Repr

/-- Result metadata (`AutopilotEnforcementResult.metadata`). -/
structure AutopilotMetadata where
  iteration : Nat
  maxIterations : Nat
  tasksCompleted : Nat
  tasksTotal : Nat
deriving DecidableEq, Repr

/-- The enforcement decision (`AutopilotEnforcementResult` in `enforcement.ts`). -/
structure AutopilotEnforcementResult where
  shouldBlock : Bool
  message : String
  phase : AutopilotPhase
  metadata : Option AutopilotMetadata
deriving DecidableEq, Repr

/-- The persisted store for one working directory: the record, or absent. -/
def Store := Option AutopilotState
deriving DecidableEq, Repr

/-! ## signals.ts -/

/-- The literal marker text of each signal (the key strings of
`SIGNAL_PATTERNS` in `signals.ts`; each pattern is the literal marker with
the case-insensitive flag). -/
def signalMarker : AutopilotSignal → String
  | .EXPANSION_COMPLETE => "EXPANSION_COMPLETE"
  | .PLANNING_COMPLETE => "PLANNING_COMPLETE"
  | .EXECUTION_COMPLETE => "EXECUTION_COMPLETE"
  | .QA_COMPLETE => "QA_COMPLETE"
  | .VALIDATION_COMPLETE => "VALIDATION_COMPLETE"
  | .AUTOPILOT_COMPLETE => "AUTOPILOT_COMPLETE"
  | .TRANSITION_TO_QA => "TRANSITION_TO_QA"
  | .TRANSITION_TO_VALIDATION => "TRANSITION_TO_VALIDATION"

/-- Executable substring test on character lists. -/
def charsContain (needle : List Char) : List Char → Bool
  | [] => needle.isPrefixOf []
  | c :: rest => needle.isPrefixOf (c :: rest) || charsContain needle rest

/-- `pattern.test(content)` for the pattern `/marker/i`: a case-insensitive
substring match of the literal marker (both sides folded to upper case). -/
def matchesSignal (sig : AutopilotSignal) (content : String) : Bool :=
  charsContain ((signalMarker sig).data.map Char.toUpper)
    (content.data.map Char.toUpper)

/-- The three candidate transcript locations of `detectSignal`
(`~/.claude/sessions/<id>/transcript.md`, `~/.claude/sessions/<id>/messages.json`,
`~/.claude/transcripts/<id>.md`), in source order. -/
inductive CandidatePath
  | sessionTranscriptMd
  | sessionMessagesJson
  | transcriptsMd
deriving DecidableEq, Repr

/-- The ordered candidate list (`possiblePaths` in `detectSignal`). -/
def possiblePaths : List CandidatePath :=
  [.sessionTranscriptMd, .sessionMessagesJson, .transcriptsMd]

/-- The transcript filesystem seen by `detectSignal`: per session and
candidate location, whether the file exists, whether reading it succeeds
(`readFileSync` may throw), and its text when readable. -/
structure TranscriptFS where
  existsAt : String → CandidatePath → Bool
  readable : String → CandidatePath → Bool
  content : String → CandidatePath → String

/-- `detectSignal(sessionId, signal)` from `signals.ts`: walk the candidate
locations in order; a candidate that exists and reads successfully and whose
text matches the marker pattern yields `true`; a missing or unreadable
candidate is skipped; `false` when no candidate matches. -/
def detectSignal (fs : TranscriptFS) (sessionId : String) (sig : AutopilotSignal) : Bool :=
  possiblePaths.any fun p =>
    fs.existsAt sessionId p &&
      (fs.readable sessionId p && matchesSignal sig (fs.content sessionId p))

/-- `getExpectedSignalForPhase` from `signals.ts`. -/
def getExpectedSignalForPhase : AutopilotPhase → Option AutopilotSignal
  | .expansion => some .EXPANSION_COMPLETE
  | .planning => some .PLANNING_COMPLETE
  | .execution => some .EXECUTION_COMPLETE
  | .qa => some .QA_COMPLETE
  | .validation => some .VALIDATION_COMPLETE
  | _ => none

/-! ## enforcement.ts -/

/-- `getNextPhase` from `enforcement.ts`: the canonical successor table. -/
def getNextPhase : AutopilotPhase → Option AutopilotPhase
  | .expansion => some .planning
  | .planning => some .execution
  | .execution => some .qa
  | .qa => some .validation
  | .validation => some .complete
  | _ => none

/-- Modelled from the spec: `writeAutopilotState` (in `state.js`, outside the
verified sources) is a full atomic overwrite of the persisted record (§4.1). -/
def writeAutopilotState (_store : Store) (s : AutopilotState) : Store :=
  some s

/-- Modelled from the spec: `transitionPhase` (in `state.js`, outside the
verified sources) is the generic simple edge, "a simple field update via
`setPhase(dir, newPhase)`" (§4.3): it rewrites only the `phase` field. -/
def transitionPhase (store : Store) (p : AutopilotPhase) : Store :=
  match store with
  | none => none
  | some s => some { s with phase := p }

/-- Modelled from the spec: `transitionRalphToUltraQA` (in `transition.js`,
outside the verified sources) is the compound execution→qa edge; on success it
initializes the qa substate, persists `phase = qa` and restarts the iteration
counter at 0, so the first continuation of the new phase is iteration 1
(§4.3 and the §8 scenario). The effect below is its success effect; failure
leaves the record unchanged ("on failure the phase MUST NOT advance"). -/
def transitionRalphToUltraQA (store : Store) : Store :=
  match store with
  | none => none
  | some s => some { s with phase := .qa, iteration := 0 }

/-- Modelled from the spec: `transitionUltraQAToValidation` (in
`transition.js`, outside the verified sources), the compound qa→validation
edge; success effect analogous to the execution→qa edge. -/
def transitionUltraQAToValidation (store : Store) : Store :=
  match store with
  | none => none
  | some s => some { s with phase := .validation, iteration := 0 }

/-- Modelled from the spec: `transitionToComplete` (in `transition.js`,
outside the verified sources), the dedicated finalize operation for a
transition landing on `complete` (§4.3). -/
def transitionToComplete (store : Store) : Store :=
  match store with
  | none => none
  | some s => some { s with phase := .complete }

/-- The environment of one `checkAutopilot` tick: the transcript filesystem,
the success outcome each compound transition would report on this tick, and
the opaque prompt-composition service `getPhasePrompt(phase, opts)` (§6). -/
structure Env where
  fs : TranscriptFS
  ralphOk : Bool
  ultraOk : Bool
  getPhasePrompt : AutopilotPhase → String → String → String → String

/-- Uppercase rendering of a phase (`state.phase.toUpperCase()`). -/
def phaseUpper : AutopilotPhase → String
  | .expansion => "EXPANSION"
  | .planning => "PLANNING"
  | .execution => "EXECUTION"
  | .qa => "QA"
  | .validation => "VALIDATION"
  | .complete => "COMPLETE"
  | .failed => "FAILED"

/-- The continuation message template of `generateContinuationPrompt`. -/
def continuationMessage (env : Env) (s : AutopilotState) : String :=
  let phasePrompt := env.getPhasePrompt s.phase s.originalIdea
    (s.expansion.spec_path.getD ".omc/autopilot/spec.md")
    (s.planning.plan_path.getD ".omc/plans/autopilot-impl.md")
  "<autopilot-continuation>\n\n[AUTOPILOT - PHASE: " ++ phaseUpper s.phase ++
    " | ITERATION " ++ toString s.iteration ++ "/" ++ toString s.max_iterations ++
    "]\n\nYour previous response did not signal phase completion. Continue working on the current phase.\n\n" ++
    phasePrompt ++
    "\n\nIMPORTANT: When the phase is complete, output the appropriate signal:\n- Expansion: EXPANSION_COMPLETE\n- Planning: PLANNING_COMPLETE\n- Execution: EXECUTION_COMPLETE\n- QA: QA_COMPLETE\n- Validation: AUTOPILOT_COMPLETE\n\n</autopilot-continuation>\n\n---\n\n"

/-- `generateContinuationPrompt(state, directory)` from `enforcement.ts`:
increment `iteration`, persist the record, and return the blocking
continuation for the (unchanged) current phase. The returned pair is the
result together with the record as persisted. -/
def generateContinuationPrompt (env : Env) (state : AutopilotState) :
    AutopilotEnforcementResult × AutopilotState :=
  let s := { state with iteration := state.iteration + 1 }
  ({ shouldBlock := true
     message := continuationMessage env s
     phase := s.phase
     metadata := some
       { iteration := s.iteration
         maxIterations := s.max_iterations
         tasksCompleted := s.execution.tasks_completed
         tasksTotal := s.execution.tasks_total } }, s)

/-- The session-binding guard of `checkAutopilot`
(`state.session_id && sessionId && state.session_id !== sessionId`):
a mismatch needs both a bound id and a caller id, and the two differing. -/
def sessionMismatch (bound caller : Option String) : Bool :=
  match bound, caller with
  | some b, some c => b != c
  | _, _ => false

/-- The signal guard of `checkAutopilot`
(`expectedSignal && sessionId && detectSignal(sessionId, expectedSignal)`):
detection runs only when the phase has an expected signal and a caller
session id is present. -/
def signalDetected (env : Env) (sessionId : Option String)
    (phase : AutopilotPhase) : Bool :=
  match getExpectedSignalForPhase phase, sessionId with
  | some sig, some sid => detectSignal env.fs sid sig
  | _, _ => false

/-- The `[AUTOPILOT STOPPED]` notice of the forced-failure branch. -/
def maxIterMessage (m : Nat) : String :=
  "[AUTOPILOT STOPPED] Max iterations (" ++ toString m ++
    ") reached. Consider reviewing progress."

/-- The `[AUTOPILOT COMPLETE]` result (returned by the complete short-circuit
and by the finalize-to-complete branch). -/
def completeResult : AutopilotEnforcementResult :=
  { shouldBlock := false
    message := "[AUTOPILOT COMPLETE] All phases finished successfully!"
    phase := .complete
    metadata := none }

/-- The `[AUTOPILOT FAILED]` short-circuit result. -/
def failedResult : AutopilotEnforcementResult :=
  { shouldBlock := false
    message := "[AUTOPILOT FAILED] Session ended in failure state."
    phase := .failed
    metadata := none }

/-- The tail of the phase-advance branches: reload the freshly persisted
record (`readAutopilotState`) and emit its continuation; when the reload
comes back empty the stale `state` is used (the defensive
`if (newState)` fallthrough). The count 2 is the transition write plus the
continuation write. -/
def afterTransition (env : Env) (store1 : Store) (state : AutopilotState) :
    Option AutopilotEnforcementResult × Store × Nat :=
  match store1 with
  | some newState =>
    let p := generateContinuationPrompt env newState
    (some p.1, writeAutopilotState store1 p.2, 2)
  | none =>
    let p := generateContinuationPrompt env state
    (some p.1, writeAutopilotState store1 p.2, 2)

/-- A plain continuation of the current phase, with its single state write. -/
def continueCurrent (env : Env) (store : Store) (state : AutopilotState) :
    Option AutopilotEnforcementResult × Store × Nat :=
  let p := generateContinuationPrompt env state
  (some p.1, writeAutopilotState store p.2, 1)

/-- `checkAutopilot(sessionId, directory)` from `enforcement.ts`, with the
persisted store passed explicitly. Returns the result (`none` embeds the
`null` short-circuits), the store after the call, and the number of
persisted-state writes performed during the call. -/
def checkAutopilot (env : Env) (sessionId : Option String) (store : Store) :
    Option AutopilotEnforcementResult × Store × Nat :=
  match store with
  | none => (none, store, 0)
  | some state =>
    if state.active = false then (none, store, 0)
    else if sessionMismatch state.session_id sessionId = true then (none, store, 0)
    else if state.max_iterations ≤ state.iteration then
      (some { shouldBlock := false
              message := maxIterMessage state.max_iterations
              phase := .failed
              metadata := none },
       transitionPhase store .failed, 1)
    else if state.phase = .complete then (some completeResult, store, 0)
    else if state.phase = .failed then (some failedResult, store, 0)
    else if signalDetected env sessionId state.phase = true then
      match getNextPhase state.phase with
      | some next =>
        if state.phase = .execution ∧ next = .qa then
          if env.ralphOk then afterTransition env (transitionRalphToUltraQA store) state
          else continueCurrent env store state
        else if state.phase = .qa ∧ next = .validation then
          if env.ultraOk then afterTransition env (transitionUltraQAToValidation store) state
          else continueCurrent env store state
        else if next = .complete then
          (some completeResult, transitionToComplete store, 1)
        else
          afterTransition env (transitionPhase store next) state
      | none => continueCurrent env store state
    else continueCurrent env store state

/-! ## The re-running decision of spec §4.4 step 6d (for the refinement claim) -/

/-- Modelled from the spec: §4.4 step 6d says that after a successful simple
transition the controller "persists the new phase and re-runs this whole
decision against the freshly reloaded record". This is the decision procedure
with that re-run taken literally; `fuel` bounds the recursion (each re-run
strictly advances the phase, so fuel 8 is never exhausted from a reachable
state). Write counts accumulate across re-runs. -/
def checkAutopilotRerunAux (env : Env) (sessionId : Option String) :
    Nat → Store → Option AutopilotEnforcementResult × Store × Nat
  | 0, store => (none, store, 0)
  | fuel + 1, store =>
    match store with
    | none => (none, store, 0)
    | some state =>
      if state.active = false then (none, store, 0)
      else if sessionMismatch state.session_id sessionId = true then (none, store, 0)
      else if state.max_iterations ≤ state.iteration then
        (some { shouldBlock := false
                message := maxIterMessage state.max_iterations
                phase := .failed
                metadata := none },
         transitionPhase store .failed, 1)
      else if state.phase = .complete then (some completeResult, store, 0)
      else if state.phase = .failed then (some failedResult, store, 0)
      else if signalDetected env sessionId state.phase = true then
        match getNextPhase state.phase with
        | some next =>
          if state.phase = .execution ∧ next = .qa then
            if env.ralphOk then
              let t := checkAutopilotRerunAux env sessionId fuel (transitionRalphToUltraQA store)
              (t.1, t.2.1, t.2.2 + 1)
            else continueCurrent env store state
          else if state.phase = .qa ∧ next = .validation then
            if env.ultraOk then
              let t := checkAutopilotRerunAux env sessionId fuel (transitionUltraQAToValidation store)
              (t.1, t.2.1, t.2.2 + 1)
            else continueCurrent env store state
          else if next = .complete then
            (some completeResult, transitionToComplete store, 1)
          else
            let t := checkAutopilotRerunAux env sessionId fuel (transitionPhase store next)
            (t.1, t.2.1, t.2.2 + 1)
        | none => continueCurrent env store state
      else continueCurrent env store state

/-- Modelled from the spec: the §4.4 decision with step 6d re-running the
whole decision, at fuel 8 (more than the length of the phase chain). -/
def checkAutopilotRerun (env : Env) (sessionId : Option String) (store : Store) :
    Option AutopilotEnforcementResult × Store × Nat :=
  checkAutopilotRerunAux env sessionId 8 store

/-! ## Concrete fixtures for witnesses and counterexamples -/

/-- A transcript filesystem whose first candidate for session `"s1"` exists,
is readable, and holds the given text; everything else is missing. -/
def fsWith (text : String) : TranscriptFS :=
  { existsAt := fun sid p => sid == "s1" && p == .sessionTranscriptMd
    readable := fun _ _ => true
    content := fun sid p => if sid == "s1" && p == .sessionTranscriptMd then text else "" }

/-- An environment with the given transcript text for `"s1"` and both
compound transitions succeeding; the prompt service returns `"P"`. -/
def envWith (text : String) : Env :=
  { fs := fsWith text
    ralphOk := true
    ultraOk := true
    getPhasePrompt := fun _ _ _ _ => "P" }

/-- A base active record bound to session `"s1"`. -/
def baseState : AutopilotState :=
  { active := true
    session_id := some "s1"
    phase := .expansion
    iteration := 0
    max_iterations := 50
    originalIdea := "idea"
    expansion := { spec_path := none }
    planning := { plan_path := none }
    execution := { tasks_completed := 0, tasks_total := 0 } }

/-- The record as persisted after one `check` call (second component of
`checkAutopilot`). -/
def stepStore (env : Env) (sessionId : Option String) (store : Store) : Store :=
  (checkAutopilot env sessionId store).2.1

/-- `n` consecutive `check` calls, tracking only the persisted record. -/
def iterStore (env : Env) (sessionId : Option String) : Nat → Store → Store
  | 0, store => store
  | n + 1, store => iterStore env sessionId n (stepStore env sessionId store)

/-- A record already in the `complete` phase. -/
def sComplete : AutopilotState :=
  { baseState with phase := AutopilotPhase.complete }

/-- The §8 scenario record: execution phase, iteration 3 of 50, bound to
`"s1"`. -/
def sC3 : AutopilotState :=
  { baseState with phase := AutopilotPhase.execution, iteration := 3 }

/-- A transcript holding both the expansion and the planning markers. -/
def envBoth : Env := envWith "EXPANSION_COMPLETE PLANNING_COMPLETE"

/-! ## Helper lemmas -/

/-- With no caller session id the signal guard is false for every phase. -/
lemma signalDetected_none (env : Env) (p : AutopilotPhase) :
    signalDetected env none p = false := by
  unfold signalDetected
  cases getExpectedSignalForPhase p <;> rfl

/-- The signal guard never fires in a terminal phase. -/
lemma signalDetected_terminal (env : Env) (sid : Option String) (p : AutopilotPhase)
    (hp : p = AutopilotPhase.complete ∨ p = AutopilotPhase.failed) :
    signalDetected env sid p = false := by
  rcases hp with h | h <;> subst h <;> unfold signalDetected <;> rfl

/-- The successor table never returns `failed`. -/
lemma getNextPhase_ne_failed (p n : AutopilotPhase) (h : getNextPhase p = some n) :
    n ≠ AutopilotPhase.failed := by
  cases p <;> simp [getNextPhase] at h <;> subst h <;> simp

/-- The successor table never returns the phase itself. -/
lemma getNextPhase_ne_self (p n : AutopilotPhase) (h : getNextPhase p = some n) :
    n ≠ p := by
  cases p <;> simp [getNextPhase] at h <;> subst h <;> simp

/-- The single no-signal `check` step: blocking continuation of the current
phase, iteration incremented by one. -/
lemma checkAutopilot_no_signal_step (env : Env) (sid : Option String)
    (s : AutopilotState)
    (hact : s.active = true)
    (hm : sessionMismatch s.session_id sid = false)
    (hmax : s.iteration < s.max_iterations)
    (hc : s.phase ≠ AutopilotPhase.complete)
    (hf : s.phase ≠ AutopilotPhase.failed)
    (hs : signalDetected env sid s.phase = false) :
    checkAutopilot env sid (some s) =
      (some (generateContinuationPrompt env s).1,
       some { s with iteration := s.iteration + 1 }, 1) := by
  have hmax' : ¬ s.max_iterations ≤ s.iteration := Nat.not_le.mpr hmax
  simp [checkAutopilot, hact, hm, hmax', hc, hf, hs, continueCurrent,
    writeAutopilotState, generateContinuationPrompt]

/-! ## Claim theorems -/

/-- C8: `detectSignal` returns true exactly when some candidate transcript
location of the session exists, is readable, and matches the signal's
case-insensitive marker pattern; unreadable candidates are skipped, and the
any-candidate (existential) semantics makes the result independent of which
matching candidate comes first in the enumeration. -/
theorem detectSignal_iff_candidate (fs : TranscriptFS) (sid : String)
    (sig : AutopilotSignal) :
    detectSignal fs sid sig = true ↔
      ∃ p ∈ possiblePaths, fs.existsAt sid p = true ∧ fs.readable sid p = true ∧
        matchesSignal sig (fs.content sid p) = true := by
  simp [detectSignal, List.any_eq_true, Bool.and_eq_true]

/-- C1: for every active record passing the session-binding check with
`iteration ≥ max_iterations`, `check` persists `phase = failed` and returns
the non-blocking stop notice with phase `failed` — for every transcript
environment and every starting phase (so the branch precedes signal
detection and the complete/failed short-circuits). -/
theorem checkAutopilot_maxIter_forces_failed (env : Env) (sid : Option String)
    (s : AutopilotState)
    (hact : s.active = true)
    (hm : sessionMismatch s.session_id sid = false)
    (hmax : s.max_iterations ≤ s.iteration) :
    checkAutopilot env sid (some s) =
      (some { shouldBlock := false
              message := maxIterMessage s.max_iterations
              phase := .failed
              metadata := none },
       some { s with phase := AutopilotPhase.failed }, 1) := by
  simp [checkAutopilot, hact, hm, hmax, transitionPhase]

/-- Witness for C1: the §8 ceiling scenario, `iteration = max_iterations = 50`,
in the `complete` phase with the expansion marker present, still forces
`failed`. -/
theorem checkAutopilot_maxIter_forces_failed_witness :
    checkAutopilot envBoth (some "s1")
        (some { sComplete with iteration := 50 }) =
      (some { shouldBlock := false
              message := maxIterMessage 50
              phase := .failed
              metadata := none },
       some { sComplete with iteration := 50, phase := AutopilotPhase.failed }, 1) :=
  checkAutopilot_maxIter_forces_failed envBoth (some "s1")
    { sComplete with iteration := 50 } rfl (by decide) (by decide)

/-- C6: a record bound to one session, checked from a different session id,
yields `absent` (`null`) and the persisted record is unchanged, with zero
writes. -/
theorem checkAutopilot_session_mismatch_frame (env : Env) (s : AutopilotState)
    (b c : String) (hb : s.session_id = some b) (hne : b ≠ c) :
    checkAutopilot env (some c) (some s) = (none, some s, 0) := by
  have hm : sessionMismatch s.session_id (some c) = true := by
    simp [sessionMismatch, hb, bne_iff_ne, hne]
  cases hA : s.active with
  | false => simp [checkAutopilot, hA]
  | true => simp [checkAutopilot, hA, hm]

/-- Witness for C6: the base record is bound to `"s1"`; session `"s2"` gets
`absent` and the record is untouched. -/
theorem checkAutopilot_session_mismatch_frame_witness :
    checkAutopilot envBoth (some "s2") (some baseState) = (none, some baseState, 0) :=
  checkAutopilot_session_mismatch_frame envBoth baseState "s1" "s2" rfl (by decide)

/-- C9: with no caller session id, an active bound record in a non-terminal
phase below the ceiling is never rejected by the binding guard and never
advances: signal detection is skipped and the call returns the blocking
continuation of the current phase while incrementing the persisted
iteration. -/
theorem checkAutopilot_absent_sessionId_continues (env : Env) (s : AutopilotState)
    (b : String) (hb : s.session_id = some b)
    (hact : s.active = true)
    (hmax : s.iteration < s.max_iterations)
    (hc : s.phase ≠ AutopilotPhase.complete)
    (hf : s.phase ≠ AutopilotPhase.failed) :
    checkAutopilot env none (some s) =
      (some (generateContinuationPrompt env s).1,
       some { s with iteration := s.iteration + 1 }, 1) ∧
    (generateContinuationPrompt env s).1.shouldBlock = true ∧
    (generateContinuationPrompt env s).1.phase = s.phase := by
  have hm : sessionMismatch s.session_id none = false := by
    cases s.session_id <;> rfl
  refine ⟨checkAutopilot_no_signal_step env none s hact hm hmax hc hf
    (signalDetected_none env s.phase), ?_, ?_⟩ <;>
    simp [generateContinuationPrompt]

/-- Witness for C9: the base record (bound to `"s1"`, expansion phase,
iteration 0 of 50) checked with no session id. -/
theorem checkAutopilot_absent_sessionId_continues_witness :
    checkAutopilot envBoth none (some baseState) =
      (some (generateContinuationPrompt envBoth baseState).1,
       some { baseState with iteration := 1 }, 1) ∧
    (generateContinuationPrompt envBoth baseState).1.shouldBlock = true ∧
    (generateContinuationPrompt envBoth baseState).1.phase = baseState.phase :=
  checkAutopilot_absent_sessionId_continues envBoth baseState "s1" rfl rfl
    (by decide) (by decide) (by decide)

/-- C5: with no expected signal detected, every `check` call of a repeated
sequence leaves the phase (and every other field) unchanged and increments
the persisted iteration by exactly one, as long as the ceiling is not
reached: after `n` calls the persisted record is the original with
`iteration + n`. -/
theorem checkAutopilot_no_signal_iterates (env : Env) (sid : Option String) :
    ∀ (n : Nat) (s : AutopilotState),
      s.active = true →
      sessionMismatch s.session_id sid = false →
      s.phase ≠ AutopilotPhase.complete →
      s.phase ≠ AutopilotPhase.failed →
      signalDetected env sid s.phase = false →
      s.iteration + n ≤ s.max_iterations →
      iterStore env sid n (some s) = some { s with iteration := s.iteration + n }
  | 0, s, _, _, _, _, _, _ => by simp [iterStore]
  | n + 1, s, hact, hm, hc, hf, hs, hn => by
    have hmax : s.iteration < s.max_iterations := by omega
    have hstep := checkAutopilot_no_signal_step env sid s hact hm hmax hc hf hs
    have ih := checkAutopilot_no_signal_iterates env sid n
      { s with iteration := s.iteration + 1 } hact hm hc hf hs (by simp; omega)
    rw [iterStore, stepStore, hstep]
    simpa [Nat.add_assoc, Nat.add_comm 1 n] using ih

/-- Witness for C5: three signal-free calls on the base record leave the
phase at expansion and move the iteration from 0 to 3. -/
theorem checkAutopilot_no_signal_iterates_witness :
    iterStore (envWith "") (some "s1") 3 (some baseState) =
      some { baseState with iteration := 3 } :=
  checkAutopilot_no_signal_iterates (envWith "") (some "s1") 3 baseState rfl
    (by decide) (by decide) (by decide) (by decide) (by decide)

/-- C3 (§8 scenario): execution phase, iteration 3 of 50, bound to `"s1"`,
transcript containing `EXECUTION_COMPLETE`, compound transition succeeding:
the persisted phase becomes `qa` with iteration 1, and the result blocks with
phase `qa` and metadata iteration 1 of 50. -/
theorem checkAutopilot_execution_to_qa_scenario :
    (checkAutopilot (envWith "EXECUTION_COMPLETE") (some "s1") (some sC3)).2.1 =
      some { sC3 with phase := AutopilotPhase.qa, iteration := 1 } ∧
    (checkAutopilot (envWith "EXECUTION_COMPLETE") (some "s1") (some sC3)).1.map
        AutopilotEnforcementResult.shouldBlock = some true ∧
    (checkAutopilot (envWith "EXECUTION_COMPLETE") (some "s1") (some sC3)).1.map
        AutopilotEnforcementResult.phase = some AutopilotPhase.qa ∧
    (checkAutopilot (envWith "EXECUTION_COMPLETE") (some "s1") (some sC3)).1.map
        AutopilotEnforcementResult.metadata =
      some (some { iteration := 1, maxIterations := 50, tasksCompleted := 0, tasksTotal := 0 }) := by
  decide

/-- C4: in a compound-transition phase (execution or qa) with the expected
signal detected, a failing compound transition leaves the persisted phase
unchanged and `check` returns the blocking continuation of the current (not
next) phase, with the single continuation write — never an error. -/
theorem checkAutopilot_compound_failure_keeps_phase (env : Env)
    (sid : Option String) (s : AutopilotState)
    (hact : s.active = true)
    (hm : sessionMismatch s.session_id sid = false)
    (hmax : s.iteration < s.max_iterations)
    (hsig : signalDetected env sid s.phase = true)
    (hfail : (s.phase = AutopilotPhase.execution ∧ env.ralphOk = false) ∨
             (s.phase = AutopilotPhase.qa ∧ env.ultraOk = false)) :
    checkAutopilot env sid (some s) =
      (some (generateContinuationPrompt env s).1,
       some { s with iteration := s.iteration + 1 }, 1) ∧
    (generateContinuationPrompt env s).1.shouldBlock = true ∧
    (generateContinuationPrompt env s).1.phase = s.phase := by
  have hmax' : ¬ s.max_iterations ≤ s.iteration := Nat.not_le.mpr hmax
  rcases hfail with ⟨hp, hop⟩ | ⟨hp, hop⟩ <;>
    refine ⟨?_, by simp [generateContinuationPrompt], by simp [generateContinuationPrompt]⟩ <;>
    simp [checkAutopilot, hact, hm, hmax', hp, hsig, hop, getNextPhase,
      continueCurrent, writeAutopilotState, generateContinuationPrompt]

/-- Witness for C4: execution phase with `EXECUTION_COMPLETE` present but the
execution→qa compound transition failing: the phase stays execution. -/
theorem checkAutopilot_compound_failure_keeps_phase_witness :
    checkAutopilot { envWith "EXECUTION_COMPLETE" with ralphOk := false }
        (some "s1") (some { baseState with phase := AutopilotPhase.execution }) =
      (some (generateContinuationPrompt { envWith "EXECUTION_COMPLETE" with ralphOk := false }
          { baseState with phase := AutopilotPhase.execution }).1,
       some { baseState with phase := AutopilotPhase.execution, iteration := 1 }, 1) ∧
    (generateContinuationPrompt { envWith "EXECUTION_COMPLETE" with ralphOk := false }
        { baseState with phase := AutopilotPhase.execution }).1.shouldBlock = true ∧
    (generateContinuationPrompt { envWith "EXECUTION_COMPLETE" with ralphOk := false }
        { baseState with phase := AutopilotPhase.execution }).1.phase =
      ({ baseState with phase := AutopilotPhase.execution } : AutopilotState).phase :=
  checkAutopilot_compound_failure_keeps_phase _ _ _ rfl (by decide) (by decide)
    (by decide) (Or.inl ⟨rfl, rfl⟩)

/-- Counterexample for C2: with the transcript holding both
`EXPANSION_COMPLETE` and `PLANNING_COMPLETE`, the code transitions
expansion→planning and emits the planning continuation, while re-running the
whole decision against the reloaded record (spec §4.4 step 6d taken
literally) would detect `PLANNING_COMPLETE` and advance again to execution:
the claim that the continuation is produced by the full decision applied to
the new phase is false at this input. -/
theorem checkAutopilot_rerun_counterexample :
    (checkAutopilot envBoth (some "s1") (some baseState)).1.map
        AutopilotEnforcementResult.phase = some AutopilotPhase.planning ∧
    (checkAutopilotRerun envBoth (some "s1") (some baseState)).1.map
        AutopilotEnforcementResult.phase = some AutopilotPhase.execution ∧
    checkAutopilot envBoth (some "s1") (some baseState) ≠
      checkAutopilotRerun envBoth (some "s1") (some baseState) := by
  decide

/-- C2 (amended): on a detected signal with a simple (non-compound,
non-complete) edge, `check` persists the new phase and returns the
continuation generated from the freshly reloaded record (its iteration
incremented by one, two state writes in total); the decision is NOT re-run
against the new phase — no further signal, terminal, or ceiling check is
applied on the same tick. -/
theorem checkAutopilot_simple_edge_continuation (env : Env)
    (sid : Option String) (s : AutopilotState) (next : AutopilotPhase)
    (hact : s.active = true)
    (hm : sessionMismatch s.session_id sid = false)
    (hmax : s.iteration < s.max_iterations)
    (hsig : signalDetected env sid s.phase = true)
    (hnext : getNextPhase s.phase = some next)
    (hc1 : ¬(s.phase = AutopilotPhase.execution ∧ next = AutopilotPhase.qa))
    (hc2 : ¬(s.phase = AutopilotPhase.qa ∧ next = AutopilotPhase.validation))
    (hcomp : next ≠ AutopilotPhase.complete) :
    checkAutopilot env sid (some s) =
      (some (generateContinuationPrompt env { s with phase := next }).1,
       some { s with phase := next, iteration := s.iteration + 1 }, 2) := by
  have hmax' : ¬ s.max_iterations ≤ s.iteration := Nat.not_le.mpr hmax
  have hc : s.phase ≠ AutopilotPhase.complete := by
    intro h
    rw [signalDetected_terminal env sid s.phase (Or.inl h)] at hsig
    exact Bool.false_ne_true hsig
  have hf : s.phase ≠ AutopilotPhase.failed := by
    intro h
    rw [signalDetected_terminal env sid s.phase (Or.inr h)] at hsig
    exact Bool.false_ne_true hsig
  simp [checkAutopilot, hact, hm, hmax', hc, hf, hsig, hnext, hc1, hc2, hcomp,
    transitionPhase, afterTransition, writeAutopilotState,
    generateContinuationPrompt]

/-- Witness for C2 (amended): detecting `EXPANSION_COMPLETE` on the base
record persists planning and returns the planning continuation at
iteration 1. -/
theorem checkAutopilot_simple_edge_continuation_witness :
    checkAutopilot (envWith "EXPANSION_COMPLETE") (some "s1") (some baseState) =
      (some (generateContinuationPrompt (envWith "EXPANSION_COMPLETE")
          { baseState with phase := AutopilotPhase.planning }).1,
       some { baseState with phase := AutopilotPhase.planning, iteration := 1 }, 2) :=
  checkAutopilot_simple_edge_continuation (envWith "EXPANSION_COMPLETE")
    (some "s1") baseState AutopilotPhase.planning rfl (by decide) (by decide)
    (by decide) rfl (by decide) (by decide) (by decide)

/-- Extract the result component from an equation between `check` triples. -/
lemma check_result_eq {X r : AutopilotEnforcementResult} {Y store' : Store}
    {n w : Nat}
    (h : ((some X, Y, n) : Option AutopilotEnforcementResult × Store × Nat) =
      (some r, store', w)) : r = X := by
  have h1 := congrArg Prod.fst h
  simp only [Option.some.injEq] at h1
  exact h1.symm

/-- C10: every non-absent `check` result blocks exactly on the five active
phases: `shouldBlock` is false if and only if the result's phase is
`complete` or `failed`. -/
theorem checkAutopilot_block_iff_terminal (env : Env) (sid : Option String)
    (st : Store) (r : AutopilotEnforcementResult) (store' : Store) (w : Nat)
    (h : checkAutopilot env sid st = (some r, store', w)) :
    r.shouldBlock = false ↔
      (r.phase = AutopilotPhase.complete ∨ r.phase = AutopilotPhase.failed) := by
  cases st with
  | none => simp [checkAutopilot] at h
  | some s =>
    simp only [checkAutopilot] at h
    by_cases h1 : s.active = false
    · rw [if_pos h1] at h; exact absurd h (by simp)
    rw [if_neg h1] at h
    by_cases h2 : sessionMismatch s.session_id sid = true
    · rw [if_pos h2] at h; exact absurd h (by simp)
    rw [if_neg h2] at h
    by_cases h3 : s.max_iterations ≤ s.iteration
    · rw [if_pos h3] at h
      rw [check_result_eq h]
      simp
    rw [if_neg h3] at h
    by_cases h4 : s.phase = AutopilotPhase.complete
    · rw [if_pos h4] at h
      rw [check_result_eq h]
      simp [completeResult]
    rw [if_neg h4] at h
    by_cases h5 : s.phase = AutopilotPhase.failed
    · rw [if_pos h5] at h
      rw [check_result_eq h]
      simp [failedResult]
    rw [if_neg h5] at h
    by_cases h6 : signalDetected env sid s.phase = true
    · rw [if_pos h6] at h
      cases hnp : getNextPhase s.phase with
      | none =>
        simp only [hnp] at h
        simp only [continueCurrent, writeAutopilotState] at h
        rw [check_result_eq h]
        simp [generateContinuationPrompt, h4, h5]
      | some next =>
        simp only [hnp] at h
        by_cases h7 : s.phase = AutopilotPhase.execution ∧ next = AutopilotPhase.qa
        · rw [if_pos h7] at h
          by_cases h8 : env.ralphOk = true
          · rw [if_pos h8] at h
            simp only [transitionRalphToUltraQA, afterTransition,
              writeAutopilotState] at h
            rw [check_result_eq h]
            simp [generateContinuationPrompt]
          · rw [if_neg h8] at h
            simp only [continueCurrent, writeAutopilotState] at h
            rw [check_result_eq h]
            simp [generateContinuationPrompt, h4, h5]
        rw [if_neg h7] at h
        by_cases h9 : s.phase = AutopilotPhase.qa ∧ next = AutopilotPhase.validation
        · rw [if_pos h9] at h
          by_cases h10 : env.ultraOk = true
          · rw [if_pos h10] at h
            simp only [transitionUltraQAToValidation, afterTransition,
              writeAutopilotState] at h
            rw [check_result_eq h]
            simp [generateContinuationPrompt]
          · rw [if_neg h10] at h
            simp only [continueCurrent, writeAutopilotState] at h
            rw [check_result_eq h]
            simp [generateContinuationPrompt, h4, h5]
        rw [if_neg h9] at h
        by_cases h11 : next = AutopilotPhase.complete
        · rw [if_pos h11] at h
          rw [check_result_eq h]
          simp [completeResult]
        · rw [if_neg h11] at h
          simp only [transitionPhase, afterTransition, writeAutopilotState] at h
          rw [check_result_eq h]
          simp [generateContinuationPrompt, h11,
            getNextPhase_ne_failed s.phase next hnp]
    · rw [if_neg h6] at h
      simp only [continueCurrent, writeAutopilotState] at h
      rw [check_result_eq h]
      simp [generateContinuationPrompt, h4, h5]

/-- Witness for C10: the complete short-circuit result of a record in phase
`complete`. -/
theorem checkAutopilot_block_iff_terminal_witness :
    completeResult.shouldBlock = false ↔
      (completeResult.phase = AutopilotPhase.complete ∨
       completeResult.phase = AutopilotPhase.failed) :=
  checkAutopilot_block_iff_terminal envBoth (some "s1") (some sComplete)
    completeResult (some sComplete) 0 (by decide)

/-- Extract the write count from an equation between `check` triples. -/
lemma check_writes_eq {X r : AutopilotEnforcementResult} {Y store' : Store}
    {n w : Nat}
    (h : ((some X, Y, n) : Option AutopilotEnforcementResult × Store × Nat) =
      (some r, store', w)) : w = n := by
  have h1 := congrArg (fun t => t.2.2) h
  exact h1.symm

/-- Counterexample for C7: a record already in phase `complete` (below the
ceiling) yields a non-absent result with ZERO persisted-state mutations, so
the non-absent branches do not all mutate exactly once. -/
theorem checkAutopilot_complete_branch_no_write :
    (checkAutopilot envBoth (some "s1") (some sComplete)).1 = some completeResult ∧
    (checkAutopilot envBoth (some "s1") (some sComplete)).2.2 = 0 := by
  decide

/-- C7 (amended): a non-absent `check` call mutates persisted state at most
twice, zero times exactly in the complete/failed short-circuits (terminal
phase below the ceiling), twice exactly in the phase-advancing branches
(those returning a blocking continuation whose phase differs from the
record's), and once in every other branch. -/
theorem checkAutopilot_write_count (env : Env) (sid : Option String)
    (s : AutopilotState) (r : AutopilotEnforcementResult) (store' : Store)
    (w : Nat)
    (h : checkAutopilot env sid (some s) = (some r, store', w)) :
    w ≤ 2 ∧
    ((w = 0) ↔ (s.iteration < s.max_iterations ∧
      (s.phase = AutopilotPhase.complete ∨ s.phase = AutopilotPhase.failed))) ∧
    ((w = 2) ↔ (r.shouldBlock = true ∧ r.phase ≠ s.phase)) := by
  simp only [checkAutopilot] at h
  by_cases h1 : s.active = false
  · rw [if_pos h1] at h; exact absurd h (by simp)
  rw [if_neg h1] at h
  by_cases h2 : sessionMismatch s.session_id sid = true
  · rw [if_pos h2] at h; exact absurd h (by simp)
  rw [if_neg h2] at h
  by_cases h3 : s.max_iterations ≤ s.iteration
  · rw [if_pos h3] at h
    rw [check_result_eq h, check_writes_eq h]
    refine ⟨by omega, by simp; omega, by simp⟩
  rw [if_neg h3] at h
  by_cases h4 : s.phase = AutopilotPhase.complete
  · rw [if_pos h4] at h
    rw [check_result_eq h, check_writes_eq h]
    refine ⟨by omega, by simp [h4]; omega, by simp [completeResult]⟩
  rw [if_neg h4] at h
  by_cases h5 : s.phase = AutopilotPhase.failed
  · rw [if_pos h5] at h
    rw [check_result_eq h, check_writes_eq h]
    refine ⟨by omega, by simp [h5]; omega, by simp [failedResult]⟩
  rw [if_neg h5] at h
  by_cases h6 : signalDetected env sid s.phase = true
  · rw [if_pos h6] at h
    cases hnp : getNextPhase s.phase with
    | none =>
      simp only [hnp] at h
      simp only [continueCurrent, writeAutopilotState] at h
      rw [check_result_eq h, check_writes_eq h]
      refine ⟨by omega, by simp [h4, h5], by simp [generateContinuationPrompt]⟩
    | some next =>
      simp only [hnp] at h
      by_cases h7 : s.phase = AutopilotPhase.execution ∧ next = AutopilotPhase.qa
      · rw [if_pos h7] at h
        by_cases h8 : env.ralphOk = true
        · rw [if_pos h8] at h
          simp only [transitionRalphToUltraQA, afterTransition,
            writeAutopilotState] at h
          rw [check_result_eq h, check_writes_eq h]
          refine ⟨by omega, by simp [h4, h5], ?_⟩
          simp [generateContinuationPrompt, h7.1]
        · rw [if_neg h8] at h
          simp only [continueCurrent, writeAutopilotState] at h
          rw [check_result_eq h, check_writes_eq h]
          refine ⟨by omega, by simp [h4, h5], by simp [generateContinuationPrompt]⟩
      rw [if_neg h7] at h
      by_cases h9 : s.phase = AutopilotPhase.qa ∧ next = AutopilotPhase.validation
      · rw [if_pos h9] at h
        by_cases h10 : env.ultraOk = true
        · rw [if_pos h10] at h
          simp only [transitionUltraQAToValidation, afterTransition,
            writeAutopilotState] at h
          rw [check_result_eq h, check_writes_eq h]
          refine ⟨by omega, by simp [h4, h5], ?_⟩
          simp [generateContinuationPrompt, h9.1]
        · rw [if_neg h10] at h
          simp only [continueCurrent, writeAutopilotState] at h
          rw [check_result_eq h, check_writes_eq h]
          refine ⟨by omega, by simp [h4, h5], by simp [generateContinuationPrompt]⟩
      rw [if_neg h9] at h
      by_cases h11 : next = AutopilotPhase.complete
      · rw [if_pos h11] at h
        rw [check_result_eq h, check_writes_eq h]
        refine ⟨by omega, by simp [h4, h5], by simp [completeResult]⟩
      · rw [if_neg h11] at h
        simp only [transitionPhase, afterTransition, writeAutopilotState] at h
        rw [check_result_eq h, check_writes_eq h]
        refine ⟨by omega, by simp [h4, h5], ?_⟩
        simp [generateContinuationPrompt, getNextPhase_ne_self s.phase next hnp]
  · rw [if_neg h6] at h
    simp only [continueCurrent, writeAutopilotState] at h
    rw [check_result_eq h, check_writes_eq h]
    refine ⟨by omega, by simp [h4, h5], by simp [generateContinuationPrompt]⟩

set_option maxRecDepth 8000 in
/-- Witness for C7 (amended): the signal-free base call performs exactly one
write (neither zero nor two). -/
theorem checkAutopilot_write_count_witness :
    (1 : Nat) ≤ 2 ∧
    (((1 : Nat) = 0) ↔ (baseState.iteration < baseState.max_iterations ∧
      (baseState.phase = AutopilotPhase.complete ∨
       baseState.phase = AutopilotPhase.failed))) ∧
    (((1 : Nat) = 2) ↔
      ((generateContinuationPrompt (envWith "") baseState).1.shouldBlock = true ∧
       (generateContinuationPrompt (envWith "") baseState).1.phase ≠ baseState.phase)) :=
  checkAutopilot_write_count (envWith "") (some "s1") baseState
    (generateContinuationPrompt (envWith "") baseState).1
    (some { baseState with iteration := 1 }) 1 (by decide)
